import Mathlib

/-!
Shallow embedding of `src/bot.py`, a single-file Telegram bot that searches
YouTube, lets the user pick a result, a format and a quality, downloads the
file in a detached background task and schedules transient files for
deletion.  Python handlers become pure Lean functions; the points where the
code depends on the outside world (search results, failure points of I/O
calls, the working-directory listing, thumbnail fetches) become explicit
parameters; the mutable `context.user_data` dict becomes the `UserData`
record threaded through each handler.
-/

namespace Bot

/-- The values the `'state'` key of `context.user_data` can hold:
`None` (absent or cleared) or the string `'awaiting_video_selection'`. -/
inductive Phase where
  | none
  | awaitingVideoSelection
deriving DecidableEq, Repr

/-- The two callback-data values matched by `^(mp3|mp4)$`, stored under the
`'format'` key of `user_data`. -/
inductive Fmt where
  | mp3
  | mp4
deriving DecidableEq, Repr

/-- One `yt_dlp` search entry, with the fields `bot.py` reads:
`title`, `duration`, `webpage_url`, `thumbnail`. -/
structure Candidate where
  title : String
  duration : Option Nat
  webpage_url : String
  thumbnail : Option String
deriving DecidableEq, Repr

/-- The per-user `context.user_data` dict.  Missing keys are the defaults:
`state` absent/None, no results, no selection, no format, no message ids. -/
structure UserData where
  state : Phase := Phase.none
  search_results : List Candidate := []
  selected_video : Option Candidate := Option.none
  format : Option Fmt := Option.none
  results_message_id : Option Nat := Option.none
  selection_message_id : Option Nat := Option.none
deriving DecidableEq, Repr

/-- A freshly-created (or `clear()`-ed) `user_data` dict. -/
def emptyUD : UserData := {}

/-- `TEMP_DOWNLOAD_DIR = "downloads"`. -/
def TEMP_DOWNLOAD_DIR : String := "downloads"

/-- `os.path.join(TEMP_DOWNLOAD_DIR, name)`. -/
def dlPath (name : String) : String := TEMP_DOWNLOAD_DIR ++ "/" ++ name

/-- The fixed collage output path `os.path.join(TEMP_DOWNLOAD_DIR, 'collage.jpg')`. -/
def collage_path : String := dlPath "collage.jpg"

/-! ### `int(...)` and title sanitization -/

/-- Value of a string of decimal digits, as `int()` computes it. -/
def digitsToNat (cs : List Char) : Nat :=
  cs.foldl (fun a c => 10 * a + (c.toNat - 48)) 0

/-- Python `str.strip()`: drop leading and trailing whitespace. -/
def pyStrip (cs : List Char) : List Char :=
  ((cs.dropWhile Char.isWhitespace).reverse.dropWhile Char.isWhitespace).reverse

/-- Python `int(text)` on a decimal string: optional surrounding whitespace,
an optional sign, then one or more digits; anything else raises
`ValueError`, modelled as `none`. -/
def pyInt (s : String) : Option Int :=
  let f : Int × List Char :=
    match pyStrip s.toList with
    | '-' :: rest => (-1, rest)
    | '+' :: rest => (1, rest)
    | cs => (1, cs)
  if f.2 ≠ [] ∧ f.2.all Char.isDigit then some (f.1 * digitsToNat f.2)
  else Option.none

/-- Python `str.rstrip()`: drop trailing whitespace. -/
def rstripWs (cs : List Char) : List Char :=
  (cs.reverse.dropWhile Char.isWhitespace).reverse

/-- Line 225: `"".join([c for c in video_info['title'] if c.isalnum() or
c.isspace()]).rstrip()`. -/
def pySafeTitle (t : String) : String :=
  String.mk (rstripWs (t.toList.filter (fun c => c.isAlphanum || c.isWhitespace)))

/-! ### Thumbnail collage (`create_thumbnail_collage`, lines 125-153) -/

/-- A thumbnail URL is falsy (`if not url: continue`) when it is `None` or
the empty string. -/
def urlTruthy : Option String → Bool
  | Option.none => false
  | some s => !s.isEmpty

/-- What `create_thumbnail_collage` produces, abstracting the pixels:
the number of tiles pasted into the composite, the composite's width in
pixels, and the path the image is saved to and returned. -/
structure CollageResult where
  tiles : Nat
  width : Nat
  path : String
deriving DecidableEq, Repr

/-- `create_thumbnail_collage(thumbnail_urls)`.  `fetchOk url` tells whether
`requests.get`/`Image.open` succeeds for a url; on failure a gray 120x90
placeholder is appended instead, so either way each truthy url contributes
one entry to `images`.  Falsy urls are skipped by `if not url: continue`.
If `images` ends up empty a single 600x90 gray image is saved (no tiles
pasted); otherwise one 120-wide tile is pasted per image. -/
def create_thumbnail_collage (fetchOk : String → Bool) (urls : List (Option String)) :
    CollageResult :=
  let images : List Bool := urls.filterMap (fun u =>
    match u with
    | Option.none => Option.none
    | some s => if s.isEmpty then Option.none else some (fetchOk s))
  if images.isEmpty then ⟨0, 600, collage_path⟩
  else ⟨images.length, 120 * images.length, collage_path⟩

/-! ### Scheduled deletion (`schedule_file_deletion`, lines 29-38) -/

/-- `os.remove(path)` over a directory listing: removing an absent file
raises `FileNotFoundError`, modelled as `Except.error`. -/
def os_remove (fs : List String) (p : String) : Except String (List String) :=
  if p ∈ fs then Except.ok (fs.erase p) else Except.error "FileNotFoundError"

/-- The body of `schedule_file_deletion` after its sleep: `os.remove` in a
`try` whose `except` clauses log and swallow every failure.  Returns the
updated filesystem and the logged warning, if any; the coroutine itself
always returns normally. -/
def schedule_file_deletion (fs : List String) (p : String) : List String × Option String :=
  match os_remove fs p with
  | Except.ok fs' => (fs', Option.none)
  | Except.error e => (fs, some e)

/-! ### Search handler (`search_youtube`, lines 59-123) -/

/-- Where, if anywhere, `search_youtube`'s `try` block raises:
at `extract_info` (nothing stored yet), while building/saving the collage
(results already stored, no collage file, no deletion scheduled), at
`send_photo` (collage saved and its deletion scheduled on line 92, which
precedes the send), at the `delete_message` of the processing message
(photo sent, `results_message_id` stored, but line 115 never runs), or
nowhere (`ok`). -/
inductive SearchFail where
  | atExtract
  | atCollage
  | atPhoto
  | atDeleteMsg
  | ok
deriving DecidableEq, Repr

/-- `search_youtube`'s observable outcome: the user_data afterwards, the
deletions scheduled via `asyncio.create_task(schedule_file_deletion ...)`
as (path, delay) pairs, and whether a collage file was written. -/
structure SearchResult where
  ud : UserData
  scheduled : List (String × Nat)
  collageCreated : Bool
deriving DecidableEq, Repr

/-- `search_youtube` given the provider's entries `rs`, the message id `mid`
the transport assigns to the sent photo, and the failure point `fp`.
Empty results reply "No results found" and change nothing; otherwise
`search_results` is stored (line 86), the collage is created and its
deletion scheduled for 120s (lines 89-92), the photo is sent and its id
stored (line 109), and only after the processing message is deleted is
`state` set to `'awaiting_video_selection'` (line 115). -/
def search_youtube (rs : List Candidate) (mid : Nat) (fp : SearchFail)
    (ud : UserData) : SearchResult :=
  match fp with
  | SearchFail.atExtract => ⟨ud, [], false⟩
  | fp' =>
    if rs.isEmpty then ⟨ud, [], false⟩
    else
      match fp' with
      | SearchFail.atCollage => ⟨{ ud with search_results := rs }, [], false⟩
      | SearchFail.atPhoto =>
          ⟨{ ud with search_results := rs }, [(collage_path, 120)], true⟩
      | SearchFail.atDeleteMsg =>
          ⟨{ ud with search_results := rs, results_message_id := some mid },
            [(collage_path, 120)], true⟩
      | _ =>
          ⟨{ ud with
              search_results := rs
              results_message_id := some mid
              state := Phase.awaitingVideoSelection },
            [(collage_path, 120)], true⟩

/-! ### Selection handler and dispatcher (lines 155-188) -/

/-- The user-visible action a text handler takes: it ran a search, replied
with the retry prompt "Please enter a valid number from the list", or sent
the format-choice keyboard. -/
inductive Action where
  | searched
  | retryPrompt
  | formatPrompt
deriving DecidableEq, Repr

/-- `handle_video_selection` (lines 164-188): parse the text as an int and
require `1 <= choice <= len(search_results)`; on `ValueError`/`IndexError`
reply with the retry prompt and touch nothing; on success store
`selected_video`, store the format-keyboard message id `selMid`, and set
`state` to `None` (line 186). -/
def handle_video_selection (text : String) (selMid : Nat) (ud : UserData) :
    UserData × Action :=
  match pyInt text with
  | Option.none => (ud, Action.retryPrompt)
  | some choice =>
    if 1 ≤ choice ∧ choice ≤ (ud.search_results.length : Int) then
      match ud.search_results.get? (choice - 1).toNat with
      | some v =>
          ({ ud with
              selected_video := some v
              selection_message_id := some selMid
              state := Phase.none }, Action.formatPrompt)
      | Option.none => (ud, Action.retryPrompt)
    else (ud, Action.retryPrompt)

/-- `handle_user_response` (lines 155-162): a falsy `state` runs
`search_youtube`; `'awaiting_video_selection'` runs `handle_video_selection`. -/
def handle_user_response (text : String) (rs : List Candidate) (mid : Nat)
    (fp : SearchFail) (selMid : Nat) (ud : UserData) : UserData × Action :=
  if ud.state = Phase.none then ((search_youtube rs mid fp ud).ud, Action.searched)
  else handle_video_selection text selMid ud

/-! ### Format and quality callbacks (lines 190-222) -/

/-- `button_callback_handler`: stores `data` under `'format'` with no guard
on the current state. -/
def button_callback_handler (d : Fmt) (ud : UserData) : UserData :=
  { ud with format := some d }

/-- The bot process: the user's dict plus the in-flight
`download_and_send_file` tasks spawned with `asyncio.create_task`. -/
structure Sys where
  ud : UserData
  tasks : List (Candidate × Fmt × String)
deriving DecidableEq, Repr

/-- `quality_button_handler` (lines 208-222): parse the quality out of the
callback data, read `user_data['selected_video']` and `user_data['format']`
(a `KeyError` aborts the handler before `create_task`), and spawn a
detached `download_and_send_file` task.  No phase or in-flight-task guard
is consulted. -/
def quality_button_handler (qdata : String) (s : Sys) : Sys :=
  let quality := ((qdata.splitOn "_").get? 1).getD ""
  match s.ud.selected_video, s.ud.format with
  | some v, some f => { s with tasks := s.tasks ++ [(v, f, quality)] }
  | _, _ => s

/-! ### Download task (`download_and_send_file`, lines 224-295) -/

/-- The expected extension for a format. -/
def fmtExt : Fmt → String
  | Fmt.mp3 => ".mp3"
  | Fmt.mp4 => ".mp4"

/-- Python `fn.startswith(st)`. -/
def pyStartsWith (st fn : String) : Bool :=
  List.isPrefixOf st.toList fn.toList

/-- Lines 252-261: if the exact expected filename is present use it,
otherwise adopt the first filename in the directory listing that starts
with the sanitized title stem; `none` models the raised
`FileNotFoundError("Downloaded file could not be found.")`. -/
def locate_output (st : String) (expectedName : String) (listing : List String) :
    Option String :=
  if expectedName ∈ listing then some expectedName
  else listing.find? (fun fn => pyStartsWith st fn)

/-- The observable outcome of one `download_and_send_file` run: the
user_data afterwards, the title quoted in the failure notice (if one was
sent), the paths removed immediately by the `except` clause, the (path,
delay) deletions scheduled on success, and whether the media was delivered. -/
structure DlResult where
  ud : UserData
  sentErrorTitle : Option String
  removedNow : List String
  scheduled : List (String × Nat)
  delivered : Bool
deriving DecidableEq, Repr

/-- `download_and_send_file(chat_id, video_info, file_format, quality,
context)`.  `producerRaises` says whether `ydl.download` raises;
`deliverRaises` whether the `send_audio`/`send_video` call raises;
`listing` is the contents of the downloads directory after the producer
ran (existence checks read it).  On any exception the `except` clause
sends "Failed to download '<title>'" and removes `output_path` if it
exists; only the success path schedules the 120s deletion and calls
`context.user_data.clear()`. -/
def download_and_send_file (v : Candidate) (f : Fmt)
    (producerRaises deliverRaises : Bool) (listing : List String)
    (ud : UserData) : DlResult :=
  let st := pySafeTitle v.title
  let expectedName := st ++ fmtExt f
  if producerRaises then
    ⟨ud, some v.title,
      if expectedName ∈ listing then [dlPath expectedName] else [], [], false⟩
  else
    match locate_output st expectedName listing with
    | Option.none => ⟨ud, some v.title, [], [], false⟩
    | some name =>
      if deliverRaises then ⟨ud, some v.title, [dlPath name], [], false⟩
      else ⟨emptyUD, Option.none, [], [(dlPath name, 120)], true⟩

/-- The file, if any, sitting in the downloads directory for this run after
the producer was invoked: the expected path when it exists (also the
partial file an aborted producer may leave there), else the first
stem-prefixed file. -/
def created_file (v : Candidate) (f : Fmt) (producerRaises : Bool)
    (listing : List String) : Option String :=
  let st := pySafeTitle v.title
  let expectedName := st ++ fmtExt f
  if producerRaises then
    if expectedName ∈ listing then some expectedName else Option.none
  else locate_output st expectedName listing

/-! ### Reachable user_data states -/

/-- The user_data states reachable from a fresh session through the bot's
handlers: text messages (dispatched by `handle_user_response`), the
format button, the quality button (which does not touch user_data), and
completion of a download task (success clears the dict, failure leaves it
untouched). -/
inductive Reach : UserData → Prop where
  | init : Reach emptyUD
  | text (t : String) (rs : List Candidate) (mid : Nat) (fp : SearchFail)
      (selMid : Nat) (ud : UserData) :
      Reach ud → Reach (handle_user_response t rs mid fp selMid ud).1
  | fmtBtn (d : Fmt) (ud : UserData) :
      Reach ud → Reach (button_callback_handler d ud)
  | dlSuccess (ud : UserData) : Reach ud → Reach emptyUD
  | dlError (ud : UserData) : Reach ud → Reach ud

/-! ### Concrete fixtures used by counterexamples and witnesses -/

/-- A search entry with a thumbnail. -/
def candA : Candidate := ⟨"A", some 10, "ua", some "tha"⟩

/-- A search entry whose `thumbnail` field is `None`. -/
def candB : Candidate := ⟨"B", some 20, "ub", Option.none⟩

/-- A session mid-flow: results stored, a candidate selected, a format
chosen, both tracked message ids present, `state` already `None`. -/
def udRich : UserData :=
  { state := Phase.none, search_results := [candA], selected_video := some candA,
    format := some Fmt.mp3, results_message_id := some 3,
    selection_message_id := some 4 }

/-- A session right after a successful search. -/
def udA : UserData :=
  { state := Phase.awaitingVideoSelection, search_results := [candA] }

/-- The session after the user submits "1" in `udA`: the selection is
recorded and `state` is back to `None`. -/
def ud1 : UserData := (handle_video_selection "1" 7 udA).1

/-- A process with one download task already in flight for a session whose
`selected_video` and `format` keys are still populated. -/
def sysEx : Sys :=
  ⟨{ selected_video := some candA, format := some Fmt.mp3 },
    [(candA, Fmt.mp3, "128")]⟩

/-! ## Helper lemmas -/

/-- The head survivor of `dropWhile p` fails `p`. -/
theorem dropWhile_head_not {α} (p : α → Bool) (l : List α) :
    ∀ c, (l.dropWhile p).head? = some c → p c = false := by
  induction l with
  | nil => intro c h; simp [List.dropWhile] at h
  | cons a t ih =>
    intro c h
    rw [List.dropWhile_cons] at h
    by_cases hp : p a = true
    · rw [if_pos hp] at h; exact ih c h
    · rw [if_neg hp] at h
      simp at h
      rw [← h]
      exact Bool.eq_false_iff.mpr hp

/-- `rstripWs` only drops elements. -/
theorem rstripWs_sublist (l : List Char) : (rstripWs l).Sublist l := by
  have h1 : (l.reverse.dropWhile Char.isWhitespace).Sublist l.reverse :=
    (List.dropWhile_suffix _).sublist
  have h2 := h1.reverse
  simpa [rstripWs] using h2

/-- Each truthy url contributes exactly one entry to the `images` list of
`create_thumbnail_collage` (fetched or gray), and falsy urls contribute
none. -/
theorem collage_images_length (fetchOk : String → Bool) (urls : List (Option String)) :
    (urls.filterMap (fun u =>
      match u with
      | Option.none => Option.none
      | some s => if s.isEmpty then Option.none else some (fetchOk s))).length
      = (urls.filter urlTruthy).length := by
  induction urls with
  | nil => rfl
  | cons u t ih =>
    cases u with
    | none => simpa [List.filterMap_cons, List.filter_cons, urlTruthy] using ih
    | some s =>
      by_cases hs : s.isEmpty <;>
        simp [List.filterMap_cons, List.filter_cons, urlTruthy, hs, ih]

/-! ## Claims -/

/-- C9: for every candidate title, the derived output-name stem contains only
alphanumeric and whitespace characters of the original title, in order
(a sublist of the title), and never ends in whitespace; being a function of
the title alone it is deterministic. -/
theorem C9_safe_title_sanitization (t : String) :
    List.Sublist (pySafeTitle t).toList t.toList
    ∧ (pySafeTitle t).toList.all (fun c => c.isAlphanum || c.isWhitespace) = true
    ∧ ((pySafeTitle t).toList.getLast?).all (fun c => !c.isWhitespace) = true := by
  have hsub : ((pySafeTitle t).toList).Sublist
      (t.toList.filter (fun c => c.isAlphanum || c.isWhitespace)) := by
    simpa [pySafeTitle] using
      rstripWs_sublist (t.toList.filter (fun c => c.isAlphanum || c.isWhitespace))
  refine ⟨hsub.trans (List.filter_sublist _), ?_, ?_⟩
  · rw [List.all_eq_true]
    intro c hc
    exact (List.mem_filter.mp (hsub.subset hc)).2
  · cases hl : ((pySafeTitle t).toList).getLast? with
    | none => rfl
    | some c =>
      have hh : ((t.toList.filter
          (fun c => c.isAlphanum || c.isWhitespace)).reverse.dropWhile
            Char.isWhitespace).head? = some c := by
        have := hl
        rw [show (pySafeTitle t).toList
            = rstripWs (t.toList.filter (fun c => c.isAlphanum || c.isWhitespace))
          from rfl, rstripWs, List.getLast?_reverse] at this
        exact this
      simpa using dropWhile_head_not Char.isWhitespace _ c hh

/-- C4 counterexample: with two candidates, one of which has no thumbnail
reference, the collage has a single tile, not two — the `if not url:
continue` line skips missing references instead of substituting a
placeholder tile. -/
theorem C4_missing_thumbnail_skipped :
    ((([candA, candB] : List Candidate)).length = 2)
    ∧ (create_thumbnail_collage (fun _ => true)
        ([candA, candB].map Candidate.thumbnail)).tiles = 1
    ∧ (create_thumbnail_collage (fun _ => true)
        ([candA, candB].map Candidate.thumbnail)).tiles
        ≠ ([candA, candB] : List Candidate).length := by
  refine ⟨rfl, rfl, ?_⟩
  decide

/-- C4 amended: the collage has one tile per candidate whose thumbnail
reference is present and non-empty (an unfetchable one still yields a
gray placeholder tile, so fetch failures do not change the count);
candidates with a missing/empty reference contribute no tile, and when no
candidate has one a single fixed-width gray image with no tiles is saved. -/
theorem C4_tiles_count_truthy_urls (fetchOk : String → Bool)
    (urls : List (Option String)) :
    (create_thumbnail_collage fetchOk urls).tiles = (urls.filter urlTruthy).length := by
  dsimp only [create_thumbnail_collage]
  have h := collage_images_length fetchOk urls
  split
  · rename_i hemp
    rw [List.isEmpty_iff] at hemp
    rw [hemp] at h
    exact h
  · exact h

/-- C10: the collage-composition function always writes to and returns the
single fixed path `downloads/collage.jpg`, whatever the url list and fetch
outcomes; consequently every search that creates a collage schedules a
deletion of that one shared path, so successive or concurrent searches
overwrite it and schedule multiple deletions of it. -/
theorem C10_fixed_collage_path :
    (∀ (fetchOk : String → Bool) (urls : List (Option String)),
        (create_thumbnail_collage fetchOk urls).path = "downloads/collage.jpg")
    ∧ (∀ (c : Candidate) (rs : List Candidate) (mid : Nat) (ud : UserData),
        (search_youtube (c :: rs) mid SearchFail.ok ud).scheduled
          = [("downloads/collage.jpg", 120)]) := by
  constructor
  · intro fetchOk urls
    dsimp only [create_thumbnail_collage]
    split <;> rfl
  · intro c rs mid ud
    rfl

/-- `find?` returns the first element satisfying the predicate. -/
theorem find?_first {α} (p : α → Bool) (pre suf : List α) (n : α)
    (hpre : ∀ m ∈ pre, p m = false) (hn : p n = true) :
    (pre ++ n :: suf).find? p = some n := by
  induction pre with
  | nil => simp [List.find?_cons, hn]
  | cons a t ih =>
    have ha := hpre a (by simp)
    rw [List.cons_append, List.find?_cons, ha]
    exact ih (fun m hm => hpre m (by simp [hm]))

/-- C8: after the producer runs, the exact expected path is used when it
exists; otherwise the working-directory listing is scanned and the first
filename beginning with the sanitized title stem is adopted; when the scan
finds nothing the run fails with the file-not-found error notice (and no
file is removed or scheduled). -/
theorem C8_output_fallback_scan (v : Candidate) (f : Fmt) (dr : Bool)
    (listing : List String) (ud : UserData) :
    ((pySafeTitle v.title ++ fmtExt f) ∈ listing →
        locate_output (pySafeTitle v.title) (pySafeTitle v.title ++ fmtExt f) listing
          = some (pySafeTitle v.title ++ fmtExt f))
    ∧ ((pySafeTitle v.title ++ fmtExt f) ∉ listing →
        ∀ (pre suf : List String) (n : String),
          listing = pre ++ n :: suf →
          (∀ m ∈ pre, pyStartsWith (pySafeTitle v.title) m = false) →
          pyStartsWith (pySafeTitle v.title) n = true →
          locate_output (pySafeTitle v.title) (pySafeTitle v.title ++ fmtExt f) listing
            = some n)
    ∧ (locate_output (pySafeTitle v.title) (pySafeTitle v.title ++ fmtExt f) listing
          = Option.none →
        download_and_send_file v f false dr listing ud
          = ⟨ud, some v.title, [], [], false⟩) := by
  refine ⟨fun hmem => ?_, fun hmem pre suf n hl hpre hn => ?_, fun hloc => ?_⟩
  · rw [locate_output, if_pos hmem]
  · rw [locate_output, if_neg hmem, hl]
    exact find?_first _ pre suf n hpre hn
  · rw [download_and_send_file]
    simp [hloc]

/-- C8 witness: with the expected name absent and listing
`["zz", "A b.webm"]`, the second entry is the first stem-prefixed file and
is adopted. -/
theorem C8_output_fallback_scan_witness :
    locate_output (pySafeTitle "A b!") (pySafeTitle "A b!" ++ fmtExt Fmt.mp3)
        ["zz", "A b.webm"] = some "A b.webm" :=
  (C8_output_fallback_scan ⟨"A b!", Option.none, "u", Option.none⟩ Fmt.mp3 false
      ["zz", "A b.webm"] emptyUD).2.1 (by decide) ["zz"] [] "A b.webm" rfl
    (by decide) (by decide)

/-- C3 counterexample: a producer failure sends the notice with the title
and deletes the expected file, but the session's stored fields are NOT
reset — `context.user_data.clear()` runs only on the success path, so
`search_results`, `selected_video`, `format` and the message ids survive
the error. -/
theorem C3_error_leaves_fields :
    (download_and_send_file candA Fmt.mp3 true false ["A.mp3"] udRich).sentErrorTitle
        = some candA.title
    ∧ (download_and_send_file candA Fmt.mp3 true false ["A.mp3"] udRich).removedNow
        = ["downloads/A.mp3"]
    ∧ (download_and_send_file candA Fmt.mp3 true false ["A.mp3"] udRich).ud = udRich
    ∧ (download_and_send_file candA Fmt.mp3 true false ["A.mp3"] udRich).ud ≠ emptyUD
    ∧ (download_and_send_file candA Fmt.mp3 true false
        ["A.mp3"] udRich).ud.selected_video ≠ Option.none := by
  refine ⟨rfl, rfl, rfl, ?_, ?_⟩ <;> decide

/-- C3 amended: on a producer error the task notifies the user naming the
candidate's title and immediately removes the output file when it exists
at the expected path; on a delivery error it notifies likewise and removes
the located file; in both cases the session's stored fields are left
unchanged rather than reset (only a successful delivery clears the dict;
the `state` key is already `None` at this point, so a new search is still
possible). -/
theorem C3_error_notifies_and_removes (v : Candidate) (f : Fmt) (dr : Bool)
    (listing : List String) (ud : UserData) :
    ((download_and_send_file v f true dr listing ud).sentErrorTitle = some v.title
      ∧ (download_and_send_file v f true dr listing ud).removedNow
          = (if (pySafeTitle v.title ++ fmtExt f) ∈ listing
             then [dlPath (pySafeTitle v.title ++ fmtExt f)] else [])
      ∧ (download_and_send_file v f true dr listing ud).ud = ud)
    ∧ (∀ name,
        locate_output (pySafeTitle v.title) (pySafeTitle v.title ++ fmtExt f) listing
          = some name →
        (download_and_send_file v f false true listing ud).sentErrorTitle = some v.title
        ∧ (download_and_send_file v f false true listing ud).removedNow = [dlPath name]
        ∧ (download_and_send_file v f false true listing ud).ud = ud) := by
  constructor
  · exact ⟨rfl, rfl, rfl⟩
  · intro name hloc
    have h : download_and_send_file v f false true listing ud
        = ⟨ud, some v.title, [dlPath name], [], false⟩ := by
      rw [download_and_send_file]
      simp [hloc]
    rw [h]
    exact ⟨rfl, rfl, rfl⟩

/-- C3 witness: the amended statement at a delivery failure on a concrete
adopted file. -/
theorem C3_error_notifies_and_removes_witness :
    (download_and_send_file candA Fmt.mp3 false true ["A.mp3"] udRich).sentErrorTitle
        = some candA.title
    ∧ (download_and_send_file candA Fmt.mp3 false true ["A.mp3"] udRich).removedNow
        = ["downloads/A.mp3"]
    ∧ (download_and_send_file candA Fmt.mp3 false true ["A.mp3"] udRich).ud
        = udRich :=
  (C3_error_notifies_and_removes candA Fmt.mp3 true ["A.mp3"] udRich).2 "A.mp3"
    (by decide)

/-- C5: every transient file has its deletion invoked exactly once.  For a
download run, the immediately-removed paths plus the scheduled-deletion
paths are exactly the one file the run left in the working directory (or
nothing when no file was produced), and every scheduled entry uses the
120-second delay.  For a search, a deletion of the collage is scheduled
(at 120s) exactly when the collage file was created.  And the deletion
callback swallows a missing file: it logs `FileNotFoundError` and returns
normally, never surfacing an error. -/
theorem C5_deletion_exactly_once :
    (∀ (v : Candidate) (f : Fmt) (pr dr : Bool) (listing : List String)
        (ud : UserData),
        ((download_and_send_file v f pr dr listing ud).removedNow
            ++ ((download_and_send_file v f pr dr listing ud).scheduled.map Prod.fst)
          = (created_file v f pr listing).elim [] (fun n => [dlPath n]))
        ∧ ∀ e ∈ (download_and_send_file v f pr dr listing ud).scheduled, e.2 = 120)
    ∧ (∀ (rs : List Candidate) (mid : Nat) (fp : SearchFail) (ud : UserData),
        (search_youtube rs mid fp ud).scheduled
          = if (search_youtube rs mid fp ud).collageCreated
            then [(collage_path, 120)] else [])
    ∧ (∀ (fs : List String) (p : String), p ∉ fs →
        schedule_file_deletion fs p = (fs, some "FileNotFoundError"))
    ∧ (∀ (fs : List String) (p : String), p ∈ fs →
        schedule_file_deletion fs p = (fs.erase p, Option.none)) := by
  refine ⟨fun v f pr dr listing ud => ?_, fun rs mid fp ud => ?_,
    fun fs p hp => ?_, fun fs p hp => ?_⟩
  · cases pr with
    | true =>
      refine ⟨?_, ?_⟩
      · by_cases hmem : (pySafeTitle v.title ++ fmtExt f) ∈ listing <;>
          simp [download_and_send_file, created_file, hmem]
      · intro e he
        simp [download_and_send_file] at he
    | false =>
      cases hloc : locate_output (pySafeTitle v.title)
          (pySafeTitle v.title ++ fmtExt f) listing with
      | none =>
        refine ⟨?_, ?_⟩
        · simp [download_and_send_file, created_file, hloc]
        · intro e he
          simp [download_and_send_file, hloc] at he
      | some name =>
        cases dr with
        | true =>
          refine ⟨?_, ?_⟩
          · simp [download_and_send_file, created_file, hloc]
          · intro e he
            simp [download_and_send_file, hloc] at he
        | false =>
          refine ⟨?_, ?_⟩
          · simp [download_and_send_file, created_file, hloc]
          · intro e he
            simp [download_and_send_file, hloc] at he
            rw [he]
  · cases fp <;> by_cases hrs : rs.isEmpty <;> simp [search_youtube, hrs]
  · rw [schedule_file_deletion, os_remove, if_neg hp]
  · rw [schedule_file_deletion, os_remove, if_pos hp]

/-- C5 witness: concrete instances of each conditional part — a successful
download of an adopted file schedules exactly its own deletion at 120s,
and deleting an absent path is swallowed as a logged warning. -/
theorem C5_deletion_exactly_once_witness :
    ((download_and_send_file candA Fmt.mp3 false false ["A.webm"] udRich).removedNow
        ++ ((download_and_send_file candA Fmt.mp3 false false
              ["A.webm"] udRich).scheduled.map Prod.fst)
      = (created_file candA Fmt.mp3 false ["A.webm"]).elim [] (fun n => [dlPath n]))
    ∧ schedule_file_deletion ["x"] "downloads/A.webm"
        = (["x"], some "FileNotFoundError") :=
  ⟨(C5_deletion_exactly_once.1 candA Fmt.mp3 false false ["A.webm"] udRich).1,
    C5_deletion_exactly_once.2.2.1 ["x"] "downloads/A.webm" (by decide)⟩

/-- C1 counterexample: with one download task already in flight and the
session's `selected_video`/`format` keys still populated, a further
quality-selection event spawns a second concurrent
`download_and_send_file` task — `quality_button_handler` consults no
phase or in-flight guard. -/
theorem C1_second_task_spawned :
    sysEx.tasks.length = 1
    ∧ (quality_button_handler "quality_320" sysEx).tasks.length = 2
    ∧ (quality_button_handler "quality_320" sysEx).tasks ≠ sysEx.tasks := by
  refine ⟨rfl, rfl, ?_⟩
  decide

/-- C1 amended: the quality handler has no `Downloading`-phase guard:
whenever `selected_video` and `format` are present in `user_data` it
unconditionally appends another background download task, however many
are already in flight; only a `KeyError` on a missing key prevents the
spawn. -/
theorem C1_quality_event_always_spawns (q : String) (s : Sys) (v : Candidate)
    (f : Fmt) (hv : s.ud.selected_video = some v) (hf : s.ud.format = some f) :
    (quality_button_handler q s).tasks
      = s.tasks ++ [(v, f, ((q.splitOn "_").get? 1).getD "")] := by
  rw [quality_button_handler]
  simp only [hv, hf]

/-- C1 witness: the amended statement at the concrete in-flight process. -/
theorem C1_quality_event_always_spawns_witness :
    (quality_button_handler "quality_320" sysEx).tasks
      = sysEx.tasks ++ [(candA, Fmt.mp3, (("quality_320".splitOn "_").get? 1).getD "")] :=
  C1_quality_event_always_spawns "quality_320" sysEx candA Fmt.mp3 rfl rfl

/-- A search never touches the `selected_video` key, whatever the provider
returns and wherever the handler fails. -/
theorem search_youtube_fields (rs : List Candidate) (mid : Nat) (fp : SearchFail)
    (ud : UserData) :
    (search_youtube rs mid fp ud).ud.selected_video = ud.selected_video := by
  cases fp <;> by_cases hrs : rs.isEmpty <;> simp [search_youtube, hrs]

/-- If a search run ends with `state = 'awaiting_video_selection'` then it
stored a non-empty result list (the empty-results branch returns before
storing anything, and line 115 only runs on full success). -/
theorem search_youtube_awaiting (rs : List Candidate) (mid : Nat) (fp : SearchFail)
    (ud : UserData) (hud : ud.state = Phase.none) :
    (search_youtube rs mid fp ud).ud.state = Phase.awaitingVideoSelection →
    (search_youtube rs mid fp ud).ud.search_results ≠ [] := by
  intro hst
  by_cases hrs : rs.isEmpty
  · cases fp <;> simp [search_youtube, hrs, hud] at hst
  · cases fp <;> simp [search_youtube, hrs, hud] at hst ⊢
    exact fun hnil => hrs (by simp [hnil])

/-- `handle_video_selection` either replies with the retry prompt and leaves
the dict untouched, or records one of the stored candidates and drops the
phase back to `None`. -/
theorem handle_video_selection_cases (text : String) (selMid : Nat) (ud : UserData) :
    handle_video_selection text selMid ud = (ud, Action.retryPrompt)
    ∨ ∃ v, v ∈ ud.search_results
        ∧ handle_video_selection text selMid ud
            = ({ ud with
                  selected_video := some v
                  selection_message_id := some selMid
                  state := Phase.none }, Action.formatPrompt) := by
  cases hpt : pyInt text with
  | none => exact Or.inl (by simp only [handle_video_selection, hpt])
  | some c =>
    by_cases hin : 1 ≤ c ∧ c ≤ (ud.search_results.length : Int)
    · cases hg : ud.search_results.get? (c - 1).toNat with
      | none =>
        refine Or.inl ?_
        simp only [handle_video_selection, hpt]
        rw [if_pos hin, hg]
      | some v =>
        refine Or.inr ⟨v, List.get?_mem hg, ?_⟩
        simp only [handle_video_selection, hpt]
        rw [if_pos hin, hg]
    · refine Or.inl ?_
      simp only [handle_video_selection, hpt]
      rw [if_neg hin]

/-- Invariant: every reachable session whose phase is
`'awaiting_video_selection'` holds a non-empty candidate list, so a valid
selection is always available. -/
theorem reach_awaiting_nonempty {ud : UserData} (h : Reach ud) :
    ud.state = Phase.awaitingVideoSelection → ud.search_results ≠ [] := by
  induction h with
  | init => intro hst; exact absurd hst (by decide)
  | text t rs mid fp selMid ud hr ih =>
    intro hst
    by_cases hud : ud.state = Phase.none
    · rw [handle_user_response, if_pos hud] at hst ⊢
      exact search_youtube_awaiting rs mid fp ud hud hst
    · rw [handle_user_response, if_neg hud] at hst ⊢
      rcases handle_video_selection_cases t selMid ud with hcase | ⟨v, _, hcase⟩
      · rw [hcase] at hst ⊢
        exact ih hst
      · have h1 : (handle_video_selection t selMid ud).1
            = { ud with
                  selected_video := some v
                  selection_message_id := some selMid
                  state := Phase.none } := by rw [hcase]
        rw [h1] at hst
        exact absurd hst (by simp)
  | fmtBtn d ud hr ih =>
    intro hst
    rw [button_callback_handler] at hst ⊢
    exact ih hst
  | dlSuccess ud hr ih => intro hst; exact absurd hst (by decide)
  | dlError ud hr ih => exact ih

/-- C6 counterexample: after a first valid submission of "1" the phase is
`None`; a second "1" is then dispatched as a fresh search (here the
provider returns results for the query "1"), which changes the session
state — it is not answered with the corrective retry prompt. -/
theorem C6_resubmission_searches :
    ud1.state = Phase.none
    ∧ ud1.selected_video = some candA
    ∧ (handle_user_response "1" [candB] 9 SearchFail.ok 0 ud1).2 = Action.searched
    ∧ (handle_user_response "1" [candB] 9 SearchFail.ok 0 ud1).2 ≠ Action.retryPrompt
    ∧ (handle_user_response "1" [candB] 9 SearchFail.ok 0 ud1).1 ≠ ud1 := by
  refine ⟨?_, ?_, ?_, ?_, ?_⟩ <;> decide

/-- C6 amended: a repeated selection index arriving after the first
submission has moved the phase to `None` is handled as a new Idle search
query, not as a guard violation: the dispatcher runs `search_youtube`
(which may store fresh results and change the phase), and no duplicate
selection is recorded — a search never writes `selected_video`. -/
theorem C6_resubmission_is_new_search (t : String) (rs : List Candidate)
    (mid : Nat) (fp : SearchFail) (selMid : Nat) (ud : UserData)
    (h : ud.state = Phase.none) :
    (handle_user_response t rs mid fp selMid ud).2 = Action.searched
    ∧ (handle_user_response t rs mid fp selMid ud).1.selected_video
        = ud.selected_video := by
  rw [handle_user_response, if_pos h]
  exact ⟨rfl, search_youtube_fields rs mid fp ud⟩

/-- C6 witness: the amended statement at the concrete post-selection
session. -/
theorem C6_resubmission_is_new_search_witness :
    (handle_user_response "1" [candB] 9 SearchFail.ok 0 ud1).2 = Action.searched
    ∧ (handle_user_response "1" [candB] 9 SearchFail.ok 0 ud1).1.selected_video
        = ud1.selected_video :=
  C6_resubmission_is_new_search "1" [candB] 9 SearchFail.ok 0 ud1 (by decide)

/-- C7: in the `'awaiting_video_selection'` phase, text that does not parse
as an int, or parses outside `1..len(search_results)`, yields the retry
prompt and returns the dict unchanged (no transition, no field mutated);
a valid index stores the selected candidate, records the format-prompt
message id, and moves the phase out of `'awaiting_video_selection'` (the
code represents the format-selection stage by `state = None` plus the
inline keyboard). -/
theorem C7_selection_guard (ud : UserData) (text : String) (selMid : Nat)
    (_hph : ud.state = Phase.awaitingVideoSelection) :
    (pyInt text = Option.none →
        handle_video_selection text selMid ud = (ud, Action.retryPrompt))
    ∧ (∀ c : Int, pyInt text = some c →
        (c < 1 ∨ (ud.search_results.length : Int) < c) →
        handle_video_selection text selMid ud = (ud, Action.retryPrompt))
    ∧ (∀ c : Int, pyInt text = some c → 1 ≤ c →
        c ≤ (ud.search_results.length : Int) →
        ∃ v, ud.search_results.get? (c - 1).toNat = some v
          ∧ handle_video_selection text selMid ud
              = ({ ud with
                    selected_video := some v
                    selection_message_id := some selMid
                    state := Phase.none }, Action.formatPrompt)) := by
  refine ⟨fun hn => ?_, fun c hc hout => ?_, fun c hc h1 h2 => ?_⟩
  · simp only [handle_video_selection, hn]
  · have hcond : ¬ (1 ≤ c ∧ c ≤ (ud.search_results.length : Int)) := by
      rcases hout with hlow | hhigh
      · intro hand; omega
      · intro hand; omega
    simp only [handle_video_selection, hc]
    rw [if_neg hcond]
  · have hlt : (c - 1).toNat < ud.search_results.length := by omega
    have hget := List.get?_eq_get hlt
    refine ⟨ud.search_results.get ⟨(c - 1).toNat, hlt⟩, hget, ?_⟩
    simp only [handle_video_selection, hc]
    rw [if_pos ⟨h1, h2⟩, hget]

/-- C7 witness: out-of-range input "9" against a one-candidate list yields
the retry prompt and an unchanged session. -/
theorem C7_selection_guard_witness :
    handle_video_selection "9" 7 udA = (udA, Action.retryPrompt) :=
  (C7_selection_guard udA "9" 7 rfl).2.1 9 (by decide) (by decide)

/-- C2: for every reachable session, a plain text message while the phase
is `None` (Idle) runs a new search; and no reachable session is stuck:
it is either already at phase `None`, or (being in
`'awaiting_video_selection'`, necessarily with stored candidates) a single
text "1" returns it to phase `None`, after which a new search query
restarts the flow.  Error paths (search failures at any point, download
failures) never set the phase to anything a text input cannot leave. -/
theorem C2_idle_text_searches_and_recoverable (ud : UserData) (h : Reach ud) :
    (ud.state = Phase.none →
      ∀ (t : String) (rs : List Candidate) (mid : Nat) (fp : SearchFail)
        (selMid : Nat),
        handle_user_response t rs mid fp selMid ud
          = ((search_youtube rs mid fp ud).ud, Action.searched))
    ∧ (ud.state = Phase.none
        ∨ ∀ selMid : Nat,
            (handle_video_selection "1" selMid ud).1.state = Phase.none) := by
  constructor
  · intro hud t rs mid fp selMid
    rw [handle_user_response, if_pos hud]
  · by_cases hud : ud.state = Phase.none
    · exact Or.inl hud
    · refine Or.inr fun selMid => ?_
      have hst : ud.state = Phase.awaitingVideoSelection := by
        cases hph : ud.state
        · exact absurd hph hud
        · rfl
      have hne : ud.search_results ≠ [] := reach_awaiting_nonempty h hst
      have hlt : 0 < ud.search_results.length := List.length_pos.mpr hne
      have hlen : (1 : Int) ≤ (ud.search_results.length : Int) := by
        omega
      have hpi : pyInt "1" = some 1 := by decide
      have h0 : ((1 : Int) - 1).toNat = 0 := by decide
      have hget := List.get?_eq_get hlt
      have hcond : (1 : Int) ≤ 1 ∧ (1 : Int) ≤ (ud.search_results.length : Int) :=
        ⟨le_refl 1, hlen⟩
      simp only [handle_video_selection, hpi, h0]
      rw [if_pos hcond, hget]

/-- C2 witness: from the concrete reachable post-search session (phase
`'awaiting_video_selection'`), one text "1" returns the phase to `None`. -/
theorem C2_idle_text_searches_and_recoverable_witness :
    (handle_video_selection "1" 0
        (handle_user_response "q" [candA] 5 SearchFail.ok 0 emptyUD).1).1.state
      = Phase.none :=
  ((C2_idle_text_searches_and_recoverable _
      (Reach.text "q" [candA] 5 SearchFail.ok 0 emptyUD Reach.init)).2.resolve_left
    (by decide)) 0

end Bot
